import Mathlib

/-!
Shallow embedding of `ssv_cluster_exporter.py` (SSV cluster Prometheus
exporter).  Pure functions of the source are translated to Lean functions;
the asynchronous I/O calls (SSV API HTTP requests, web3 contract reads) are
modelled as oracle parameters of type `Except Unit _` (an `Except.error`
models the corresponding Python exception being raised by the call), and the
global Prometheus gauge registry is modelled as an explicit `Metrics` state
threaded through the update functions.
-/

namespace SSVExporter

/-- Models `SupportedNetworks` enum from the source (`mainnet` / `holesky`). -/
inductive SupportedNetworks where
  | mainnet
  | holesky
deriving DecidableEq, Repr

/-- Models `SupportedNetworks.__str__`: the enum's string value. -/
def SupportedNetworks.value : SupportedNetworks → String
  | .mainnet => "mainnet"
  | .holesky => "holesky"

/-- Models `SSVCluster` pydantic model: one cluster record as returned by the SSV
API, plus the two mutable enrichment fields `latest_balance` and
`latest_burn_rate` that start out as `None` and are written only by the
contract facade.  Python `==` on a pydantic model compares all fields, which
is the derived `DecidableEq` here. -/
structure SSVCluster where
  id : Int
  clusterId : String
  network : SupportedNetworks
  ownerAddress : String
  validatorCount : Int
  networkFeeIndex : String
  index : String
  balance : String
  active : Bool
  isLiquidated : Bool
  operators : List Int
  latest_balance : Option Int := none
  latest_burn_rate : Option Int := none
deriving DecidableEq, Repr

/-- Models `SSVCluster.cluster_state`: the if/elif chain of the source, in source
order (`not active and not isLiquidated` first, the `"unknown"` fallback
last). -/
def SSVCluster.cluster_state (c : SSVCluster) : String :=
  if !c.active && !c.isLiquidated then "inactive"
  else if c.active && !c.isLiquidated then "active"
  else if c.isLiquidated then "liquidated"
  else "unknown"

/-- Models `SSVCluster.operators_label`: `",".join(map(str, self.operators))`.
`String.intercalate` is the Lean counterpart of Python `str.join`. -/
def SSVCluster.operators_label (c : SSVCluster) : String :=
  String.intercalate "," (c.operators.map toString)

/-- The spec's wording for the operator label: the operator list "rendered
as a comma-joined ordered string".  Used to compare against
`operators_label`. -/
def comma_joined_render : List Int → String
  | [] => ""
  | [x] => toString x
  | x :: y :: rest => toString x ++ "," ++ comma_joined_render (y :: rest)

/-- Models `SSVCluster.__hash__` returns `self.id`.  In a Python `set` the hash
only buckets elements; two elements collapse iff their hashes agree *and*
`__eq__` holds, and pydantic's `__eq__` compares every field.  Since
field-equal records have equal `id` (hence equal hash), `set(...)` over
cluster records deduplicates exactly by whole-record equality. -/
def SSVCluster.pyHash (c : SSVCluster) : Int := c.id

/-- The `set(await self.fetch_clusters_info())` step of
`SSVClusterExporter.clusters_updates`: deduplication of the discovered list
by Python set semantics, i.e. by whole-record equality (see
`SSVCluster.pyHash`). -/
def clusters_updates_set (l : List SSVCluster) : List SSVCluster :=
  l.dedup

/-!
Discovery client, in two layers of fidelity.

The source's `request` wraps into `SSVAPIError` exactly: transport errors
(`aiohttp.ClientError` / `OSError` from `session.get`), a non-200 status,
and body-read failures that aiohttp signals as `ClientError` / `OSError`
(e.g. `ContentTypeError`).  Two failure paths of `request` and its callers
stay *unwrapped*: `response.json()` raising `json.JSONDecodeError` (a
`ValueError`, not in the `except (ClientError, OSError)` clause), and a
`KeyError` from indexing a response object that lacks the expected
`data` / `clusters` / `pagination` key.  `get_cluster_by_id` and
`get_owner_clusters` catch only `SSVAPIError`, so those two paths escape
them and `fetch_clusters_info`.

First layer: `get_cluster_by_id`, `get_owner_clusters` and
`fetch_clusters_info` below model the `SSVAPIError` regime, i.e. executions
in which every request either raises `SSVAPIError` (`Except.error`) or
succeeds with a well-formed payload — the regime of the deduplication,
pagination and enrichment theorems.  Second layer: the `_checked`
definitions further down model the full error surface, with the two
uncaught paths made explicit.
-/

/-- Models `SSVClusterExporter.get_cluster_by_id` in the `SSVAPIError`
regime: a raised `SSVAPIError` is caught and logged, a null/falsy `data`
field is logged; both yield `[]`.  The uncaught failure paths of the source
(`json.JSONDecodeError` escaping `request`, `KeyError` on a missing
`data` key) are modelled by `get_cluster_by_id_checked` below. -/
def get_cluster_by_id (resp : Except Unit (Option SSVCluster)) : List SSVCluster :=
  match resp with
  | .error _ => []
  | .ok none => []
  | .ok (some c) => [c]

/-- Termination measure for `get_owner_clusters`: the source's recursion is
guarded by `page == 1` ("Handle pagination once, avoiding higher recursion
levels"), so a call with `page ≠ 1` never recurses. -/
def pageDepth (page : Nat) : Nat := if page = 1 then 1 else 0

/-- Models `SSVClusterExporter.get_owner_clusters`: fetch one page; a raised
`SSVAPIError` is caught and yields `[]`; otherwise, only when `page == 1`
and the response reports more pages, walk pages `2 .. num_pages` in order
(the source's `while page < num_pages` loop) and append each recursive
call's clusters. -/
def get_owner_clusters (api : Nat → Except Unit (List SSVCluster × Nat)) (page : Nat) :
    List SSVCluster :=
  match api page with
  | .error _ => []
  | .ok (cs, numPages) =>
    if h : page = 1 ∧ page < numPages then
      cs ++ ((List.range (numPages - 1)).map
        (fun i => get_owner_clusters api (i + 2))).flatten
    else cs
termination_by pageDepth page
decreasing_by simp [pageDepth, h.1]

/-- The pages requested by one `get_owner_clusters` call, in program order:
every call performs exactly one `self.request` for its own page (even when
the response errors), then the `page == 1` call walks pages
`2 .. num_pages`. -/
def get_owner_clusters_fetches (api : Nat → Except Unit (List SSVCluster × Nat))
    (page : Nat) : List Nat :=
  page ::
    (match api page with
    | .error _ => []
    | .ok (_, numPages) =>
      if h : page = 1 ∧ page < numPages then
        ((List.range (numPages - 1)).map
          (fun i => get_owner_clusters_fetches api (i + 2))).flatten
      else [])
termination_by pageDepth page
decreasing_by simp [pageDepth, h.1]

/-- Sequences a list of `Option`s, `none` if any element is `none`. -/
def allSome {α : Type} : List (Option α) → Option (List α)
  | [] => some []
  | none :: _ => none
  | some x :: rest => (allSome rest).map (x :: ·)

/-- Models `get_owner_clusters` as generic recursion with explicit fuel: `none`
when the recursion-depth budget is exhausted.  Used to state that the
source's guarded recursion never needs depth greater than 2. -/
def get_owner_clusters_fuel (api : Nat → Except Unit (List SSVCluster × Nat)) :
    Nat → Nat → Option (List SSVCluster)
  | 0, _ => none
  | fuel + 1, page =>
    match api page with
    | .error _ => some []
    | .ok (cs, numPages) =>
      if page = 1 ∧ page < numPages then
        (allSome ((List.range (numPages - 1)).map
          (fun i => get_owner_clusters_fuel api fuel (i + 2)))).map
          (fun ls => cs ++ ls.flatten)
      else some cs

/-- The clusters one single page contributes: the page's `clusters` list,
or `[]` when fetching that page raised an `SSVAPIError`. -/
def page_contribution (api : Nat → Except Unit (List SSVCluster × Nat))
    (page : Nat) : List SSVCluster :=
  match api page with
  | .error _ => []
  | .ok (cs, _) => cs

/-- Models `SSVClusterExporter.fetch_clusters_info`: one task per configured owner
and one per configured explicit cluster id, gathered; `asyncio.gather`
returns results in task order, and the results are concatenated.  Every
task catches its own `SSVAPIError`s (see `get_owner_clusters` /
`get_cluster_by_id`), so in the `SSVAPIError` regime the gather itself
never fails; `fetch_clusters_info_checked` below models the full error
surface, where a task can raise an uncaught exception. -/
def fetch_clusters_info (owners : List (Nat → Except Unit (List SSVCluster × Nat)))
    (ids : List (Except Unit (Option SSVCluster))) : List SSVCluster :=
  (owners.map (fun api => get_owner_clusters api 1)).flatten
    ++ (ids.map get_cluster_by_id).flatten

/-!
Full-error-surface discovery model.  One `self.request(...)` call has three
outcomes: it raises `SSVAPIError` (wrapped transport / non-200 / body-read
failure — caught by the per-source handlers), it raises
`json.JSONDecodeError` from `response.json()` (a `ValueError`, not in the
`except (ClientError, OSError)` clause, so it escapes `request` unwrapped
and is *not* caught by `except SSVAPIError`), or it returns a decoded JSON
payload — which may still lack the key the caller indexes, raising an
uncaught `KeyError`.
-/

/-- Outcome of one `request` call, with the uncaught decode path kept
distinct from the wrapped `SSVAPIError` path. -/
inductive RequestOutcome (α : Type) where
  | apiError
  | decodeError
  | ok (payload : α)
deriving DecidableEq, Repr

/-- Decoded payload of an explicit-id response, as `get_cluster_by_id`
indexes it: the `data` key may be absent (then `response_json["data"]`
raises `KeyError`), null/falsy, or a cluster record. -/
inductive IdPayload where
  | missingData
  | dataNull
  | dataCluster (c : SSVCluster)
deriving DecidableEq, Repr

/-- Decoded payload of an owner-page response, as `get_owner_clusters`
indexes it: the `clusters` / `pagination` / `pages` keys may be absent
(uncaught `KeyError`), or the page carries its clusters list and the
reported page count. -/
inductive OwnerPayload where
  | missingKeys
  | pageData (clusters : List SSVCluster) (pages : Nat)
deriving DecidableEq, Repr

/-- The two exception classes that escape the discovery handlers (they are
caught only by the `except Exception` in `tick`). -/
inductive UncaughtExc where
  | jsonDecodeError
  | keyError
deriving DecidableEq, Repr

/-- Models `SSVClusterExporter.get_cluster_by_id` over the full error
surface: `SSVAPIError` is caught (`[]`), null/falsy `data` yields `[]`,
but a body-decode failure or an absent `data` key raises out of the
function. -/
def get_cluster_by_id_checked (resp : RequestOutcome IdPayload) :
    Except UncaughtExc (List SSVCluster) :=
  match resp with
  | .apiError => .ok []
  | .decodeError => .error .jsonDecodeError
  | .ok .missingData => .error .keyError
  | .ok .dataNull => .ok []
  | .ok (.dataCluster c) => .ok [c]

/-- Sequences a list of `Except` results, the first error winning — the
semantics of awaiting them one after the other. -/
def allOk {ε α : Type} : List (Except ε α) → Except ε (List α)
  | [] => .ok []
  | .error e :: _ => .error e
  | .ok x :: rest => (allOk rest).map (x :: ·)

/-- Models `SSVClusterExporter.get_owner_clusters` over the full error
surface: `SSVAPIError` is caught (`[]`), a decode failure or missing key
raises; on a well-formed page-1 response the walk awaits pages
`2 .. num_pages` sequentially, an uncaught exception in any of them
propagating immediately. -/
def get_owner_clusters_checked (api : Nat → RequestOutcome OwnerPayload) (page : Nat) :
    Except UncaughtExc (List SSVCluster) :=
  match api page with
  | .apiError => .ok []
  | .decodeError => .error .jsonDecodeError
  | .ok .missingKeys => .error .keyError
  | .ok (.pageData cs numPages) =>
    if h : page = 1 ∧ page < numPages then
      match allOk ((List.range (numPages - 1)).map
        (fun i => get_owner_clusters_checked api (i + 2))) with
      | .error e => .error e
      | .ok ls => .ok (cs ++ ls.flatten)
    else .ok cs
termination_by pageDepth page
decreasing_by simp [pageDepth, h.1]

/-- Models the `asyncio.gather` + concatenation tail of
`fetch_clusters_info`: if any task raised an uncaught exception the gather
propagates one (determinised here as the first in task order), otherwise
the task results are concatenated in task order. -/
def gatherFlatten (tasks : List (Except UncaughtExc (List SSVCluster))) :
    Except UncaughtExc (List SSVCluster) :=
  match allOk tasks with
  | .error e => .error e
  | .ok ls => .ok ls.flatten

/-- Models `SSVClusterExporter.fetch_clusters_info` over the full error
surface: owner tasks first, explicit-id tasks second, gathered. -/
def fetch_clusters_info_checked (owners : List (Nat → RequestOutcome OwnerPayload))
    (ids : List (RequestOutcome IdPayload)) : Except UncaughtExc (List SSVCluster) :=
  gatherFlatten (owners.map (fun api => get_owner_clusters_checked api 1)
    ++ ids.map get_cluster_by_id_checked)

/-!
Metric publisher.  The global Prometheus gauge registry is modelled as an
explicit `Metrics` record, one association list per gauge family
(`Gauge.labels(...).set(v)` upserts the value at a label tuple).  Gauge
values are the integers the source passes to `.set` (the `float(...)`
conversion does not matter for which series get written).
-/

/-- Models `Gauge.labels(k).set(v)`: upsert value `v` at label tuple `k`. -/
def gauge_set (entries : List (List String × Int)) (k : List String) (v : Int) :
    List (List String × Int) :=
  if entries.any (fun e => e.1 = k) then
    entries.map (fun e => if e.1 = k then (k, v) else e)
  else entries ++ [(k, v)]

/-- The exported gauge state: three per-cluster families and three
network-scoped families. -/
structure Metrics where
  cluster_balance : List (List String × Int) := []
  cluster_burn_rate : List (List String × Int) := []
  cluster_validators_count : List (List String × Int) := []
  network_fee : List (List String × Int) := []
  minimum_liquidation_collateral : List (List String × Int) := []
  liquidation_threshold_period : List (List String × Int) := []
deriving DecidableEq, Repr

/-- The label tuple built in `update_clusters_metrics`:
`[clusterId, id, ownerAddress, network, cluster_state(), operators_label()]`
(Prometheus stringifies each label value). -/
def cluster_labels (c : SSVCluster) : List String :=
  [c.clusterId, toString c.id, c.ownerAddress, c.network.value,
    c.cluster_state, c.operators_label]

/-- Models `SSVClusterExporter.update_clusters_metrics`: for each cluster set the
balance gauge to `latest_balance or 0`, the burn-rate gauge to
`latest_burn_rate or 0` and the validator-count gauge, all at that
cluster's label tuple. -/
def update_clusters_metrics (clusters : List SSVCluster) (m : Metrics) : Metrics :=
  clusters.foldl
    (fun m c =>
      { m with
        cluster_balance :=
          gauge_set m.cluster_balance (cluster_labels c) (c.latest_balance.getD 0)
        cluster_burn_rate :=
          gauge_set m.cluster_burn_rate (cluster_labels c) (c.latest_burn_rate.getD 0)
        cluster_validators_count :=
          gauge_set m.cluster_validators_count (cluster_labels c) c.validatorCount })
    m

/-- Models `SSVNetworkProperties` pydantic model. -/
structure SSVNetworkProperties where
  network_fee : Int
  minimum_liquidation_collateral : Int
  liquidation_threshold_period : Int
deriving DecidableEq, Repr

/-- Models `SSVClusterExporter.update_network_metrics`: set the three
network-scoped gauges at the configured network's label. -/
def update_network_metrics (network : SupportedNetworks)
    (props : SSVNetworkProperties) (m : Metrics) : Metrics :=
  { m with
    network_fee := gauge_set m.network_fee [network.value] props.network_fee
    liquidation_threshold_period :=
      gauge_set m.liquidation_threshold_period [network.value]
        props.liquidation_threshold_period
    minimum_liquidation_collateral :=
      gauge_set m.minimum_liquidation_collateral [network.value]
        props.minimum_liquidation_collateral }

/-!
Chain fetcher.  Each contract read is an oracle (`.error` = the awaited
call raising).  `SSVClusterContract.fetch_all` gathers one
`get_cluster_balance` and one `get_cluster_burn_rate` task per cluster
(2×N tasks); each task reads only the cluster's immutable API payload
(via `contract_call_args`) and on success writes `latest_balance` /
`latest_burn_rate` on that cluster.  `asyncio.gather` without
`return_exceptions` raises iff any one task raised, so the model errors
iff any single read errors, and on success every cluster carries both
on-chain values.
-/

/-- Models `SSVClusterContract.fetch_all` over `fetch_balances` and
`fetch_burn_rates` (see section comment). -/
def fetch_all (bal burn : SSVCluster → Except Unit Int)
    (clusters : List SSVCluster) : Except Unit (List SSVCluster) :=
  clusters.mapM (fun c =>
    (bal c).bind (fun b =>
      (burn c).map (fun r =>
        { c with latest_balance := some b, latest_burn_rate := some r })))

/-- Models `SSVNetworkContract.fetch_all`: gather the three network-wide reads
(fee, minimum liquidation collateral, liquidation threshold period) into an
`SSVNetworkProperties`; raises iff any single read raises. -/
def network_fetch_all (nf mlc ltp : Except Unit Int) :
    Except Unit SSVNetworkProperties :=
  match nf, mlc, ltp with
  | .ok a, .ok b, .ok c =>
    .ok { network_fee := a, minimum_liquidation_collateral := b,
          liquidation_threshold_period := c }
  | _, _, _ => .error ()

/-- Models `SSVClusterExporter.clusters_updates`: discover
(`fetch_clusters_info`), deduplicate into a set, enrich via
`SSVClusterContract.fetch_all` and, only if enrichment succeeded, publish
the cluster gauges.  An enrichment failure propagates (`.error`). -/
def clusters_updates (bal burn : SSVCluster → Except Unit Int)
    (owners : List (Nat → Except Unit (List SSVCluster × Nat)))
    (ids : List (Except Unit (Option SSVCluster))) (m : Metrics) :
    Except Unit Metrics :=
  (fetch_all bal burn (clusters_updates_set (fetch_clusters_info owners ids))).map
    (fun enriched => update_clusters_metrics enriched m)

/-- Models `SSVClusterExporter.network_updates`: fetch the three network-wide
values and, only on success, publish the network gauges.  A fetch failure
propagates (`.error`). -/
def network_updates (nf mlc ltp : Except Unit Int) (network : SupportedNetworks)
    (m : Metrics) : Except Unit Metrics :=
  (network_fetch_all nf mlc ltp).map
    (fun props => update_network_metrics network props m)

/-- Models `SSVClusterExporter.tick`:
`asyncio.gather(self.clusters_updates(), self.network_updates())` inside
one `try/except`.  `gather` without `return_exceptions` wraps both
coroutines in tasks; if one raises, the sibling task is *not* cancelled and
runs to completion on the event loop, so each of the two paths publishes
its own gauges exactly when that path itself succeeds.  The two paths write
disjoint gauge families, so their concurrent registry writes are modelled
sequentially.  The `except` block catches (once) the first exception
`gather` propagates, if any.  Returns the post-tick gauge state and the
number of exceptions caught by the `except` block. -/
def tick (bal burn : SSVCluster → Except Unit Int)
    (owners : List (Nat → Except Unit (List SSVCluster × Nat)))
    (ids : List (Except Unit (Option SSVCluster)))
    (nf mlc ltp : Except Unit Int) (network : SupportedNetworks)
    (m : Metrics) : Metrics × Nat :=
  let clusterStep := clusters_updates bal burn owners ids m
  let afterClusters := match clusterStep with
    | .ok m2 => m2
    | .error _ => m
  let networkStep := network_updates nf mlc ltp network afterClusters
  let result := match networkStep with
    | .ok m2 => m2
    | .error _ => afterClusters
  let caught : Nat := match clusterStep, networkStep with
    | .ok _, .ok _ => 0
    | _, _ => 1
  (result, caught)

/-!
Lifecycle.  `stop()` sets `self.stopping`, cancels the runner task (whose
done-callback `on_runner_task_done` sets the `stopped` event), waits for
the event if it is not yet set, and closes the shared
`aiohttp.ClientSession`.  `ClientSession.close()` is idempotent library
behaviour: it tears the underlying connector down only when the session is
not yet closed, and is a no-op afterwards; `close_ops` counts the actual
teardowns performed. -/

/-- The shared `aiohttp.ClientSession`, reduced to whether it is closed and
how many real connector teardowns have happened. -/
structure SessionState where
  closed : Bool
  close_ops : Nat
deriving DecidableEq, Repr

/-- Models `aiohttp.ClientSession.close()`: tears down the connector once; no-op
(and no exception) when already closed. -/
def session_close (s : SessionState) : SessionState :=
  if s.closed then s else { closed := true, close_ops := s.close_ops + 1 }

/-- The exporter lifecycle state touched by `stop()`. -/
structure ExporterState where
  stopping : Bool
  runner_cancelled : Bool
  stopped_event : Bool
  session : SessionState
deriving DecidableEq, Repr

/-- Models `SSVClusterExporter.stop`: set `stopping`; cancel the runner task
(`Task.cancel` never raises, also on a finished task), whose done-callback
sets the `stopped` event, so the subsequent wait returns; then close the
session.  Every step is total, so `stop` never raises. -/
def stop (st : ExporterState) : ExporterState :=
  let st1 := { st with stopping := true }
  let st2 := { st1 with runner_cancelled := true, stopped_event := true }
  { st2 with session := session_close st2.session }

/-!
Concrete inputs used to evaluate the definitions in counterexamples and
witnesses.
-/

/-- Builds a holesky cluster record with the given identity fields. -/
def mkCluster (cid : String) (i vc : Int) (ops : List Int) (act liq : Bool) :
    SSVCluster :=
  { id := i, clusterId := cid, network := .holesky, ownerAddress := "0xowner",
    validatorCount := vc, networkFeeIndex := "10", index := "3",
    balance := "1000", active := act, isLiquidated := liq, operators := ops }

/-- Two discovery records with the same `clusterId` (and even the same
numeric `id`, hence the same Python hash) that differ in `validatorCount`. -/
def cDupA : SSVCluster := mkCluster "0xabc" 7 4 [1] true false

/-- See `cDupA`. -/
def cDupB : SSVCluster := mkCluster "0xabc" 7 5 [1] true false

/-- A cluster whose operator list is the one from the spec's example. -/
def c1092 : SSVCluster := mkCluster "0xde12" 1278541 4 [1092, 1093, 1094, 1095] true false

/-- A cluster used to exercise enrichment failure. -/
def cEnrich : SSVCluster := mkCluster "0xenr" 9 2 [5, 6] true false

/-- A cluster on page 1 of `apiPage2Fails`. -/
def cPg1 : SSVCluster := mkCluster "0xp1" 21 1 [1] true false

/-- Owner pagination oracle: page 1 succeeds reporting 2 pages, page 2
raises an `SSVAPIError`. -/
def apiPage2Fails : Nat → Except Unit (List SSVCluster × Nat) :=
  fun p => if p = 1 then .ok ([cPg1], 2) else .error ()

/-- Clusters on the three pages of `apiThreePages`. -/
def cPgA : SSVCluster := mkCluster "0xpa" 31 1 [1] true false

/-- See `cPgA`. -/
def cPgB : SSVCluster := mkCluster "0xpb" 32 1 [2] true false

/-- See `cPgA`. -/
def cPgC : SSVCluster := mkCluster "0xpc" 33 1 [3] true false

/-- Owner pagination oracle with three successful pages. -/
def apiThreePages : Nat → Except Unit (List SSVCluster × Nat) :=
  fun p =>
    if p = 1 then .ok ([cPgA], 3)
    else if p = 2 then .ok ([cPgB], 3)
    else if p = 3 then .ok ([cPgC], 3)
    else .error ()

/-- The per-page clusters of `apiThreePages` for pages 2 and 3. -/
def threePagesContent : Nat → List SSVCluster :=
  fun p => if p = 2 then [cPgB] else [cPgC]

/-- A full-surface owner oracle whose every page succeeds with a single,
well-formed page. -/
def ownerOnePage : Nat → RequestOutcome OwnerPayload :=
  fun _ => .ok (.pageData [cPgA] 1)

/-- A full-surface owner oracle whose every request raises `SSVAPIError`. -/
def ownerApiErrors : Nat → RequestOutcome OwnerPayload :=
  fun _ => .apiError

/-- A balance oracle whose contract read always raises. -/
def balErr : SSVCluster → Except Unit Int := fun _ => .error ()

/-- A balance oracle whose contract read always succeeds. -/
def balOk : SSVCluster → Except Unit Int := fun _ => .ok 11

/-- A burn-rate oracle whose contract read always succeeds. -/
def burnOk : SSVCluster → Except Unit Int := fun _ => .ok 3

/-- A running exporter state: session open, no teardown performed yet. -/
def runningState : ExporterState :=
  { stopping := false, runner_cancelled := false, stopped_event := false,
    session := { closed := false, close_ops := 0 } }

/-!
Helper lemmas.
-/

/-- Unfolds `String.intercalate.go` through a prepended accumulator. -/
theorem intercalate_go_append (a x s : String) (t : List String) :
    String.intercalate.go (a ++ x) s t = a ++ String.intercalate.go x s t := by
  induction t generalizing x with
  | nil => simp [String.intercalate.go]
  | cons b t ih =>
    rw [String.intercalate.go]
    conv_rhs => rw [String.intercalate.go]
    rw [show a ++ x ++ s ++ b = a ++ (x ++ s ++ b) by simp [String.append_assoc], ih]

/-- Recursion equation for `String.intercalate.go`. -/
theorem intercalate_go_cons (a b s : String) (t : List String) :
    String.intercalate.go a s (b :: t) = a ++ s ++ String.intercalate.go b s t := by
  rw [String.intercalate.go]
  exact intercalate_go_append (a ++ s) b s t

/-- Python `",".join(map(str, l))` agrees with the spec's comma-joined
rendering. -/
theorem intercalate_eq_comma_joined_render (l : List Int) :
    String.intercalate "," (l.map toString) = comma_joined_render l := by
  match l with
  | [] => rfl
  | [x] => rfl
  | x :: y :: rest =>
    rw [comma_joined_render, ← intercalate_eq_comma_joined_render (y :: rest)]
    show String.intercalate.go (toString x) ","
      (toString y :: (List.map toString rest)) = _
    rw [intercalate_go_cons]
    rfl

/-- A call with `page ≠ 1` performs no pagination walk: it returns just its
own page's contribution. -/
theorem get_owner_clusters_ne_one (api : Nat → Except Unit (List SSVCluster × Nat))
    (page : Nat) (h : page ≠ 1) :
    get_owner_clusters api page = page_contribution api page := by
  rw [get_owner_clusters, page_contribution]
  match api page with
  | .error _ => rfl
  | .ok (cs, numPages) => simp [h]

/-- A call with `page ≠ 1` requests exactly its own page. -/
theorem get_owner_clusters_fetches_ne_one
    (api : Nat → Except Unit (List SSVCluster × Nat)) (page : Nat) (h : page ≠ 1) :
    get_owner_clusters_fetches api page = [page] := by
  rw [get_owner_clusters_fetches]
  match api page with
  | .error _ => rfl
  | .ok (cs, numPages) => simp [h]

/-- Characterisation of the page-1 call on a successful first response:
the first page's clusters followed by each further page's own
contribution (`[]` for pages whose fetch raised). -/
theorem get_owner_clusters_one (api : Nat → Except Unit (List SSVCluster × Nat))
    (cs : List SSVCluster) (N : Nat) (h : api 1 = .ok (cs, N)) :
    get_owner_clusters api 1 =
      cs ++ ((List.range (N - 1)).map
        (fun i => page_contribution api (i + 2))).flatten := by
  rw [get_owner_clusters, h]
  by_cases hN : 1 < N
  · simp only [true_and, hN, dif_pos]
    congr 1
    congr 1
    exact List.map_congr_left (fun i _ =>
      get_owner_clusters_ne_one api (i + 2) (by omega))
  · have : N - 1 = 0 := by omega
    simp [hN, this]

/-- On a successful first response reporting `N ≥ 1` pages, the page-1 call
requests exactly the pages `1, 2, …, N`, in that order. -/
theorem get_owner_clusters_fetches_one (api : Nat → Except Unit (List SSVCluster × Nat))
    (cs : List SSVCluster) (N : Nat) (h : api 1 = .ok (cs, N)) (hN : 1 ≤ N) :
    get_owner_clusters_fetches api 1 = List.range' 1 N := by
  rw [get_owner_clusters_fetches, h]
  by_cases h1 : 1 < N
  · simp only [true_and, h1, dif_pos]
    have heach : ∀ i ∈ List.range (N - 1),
        get_owner_clusters_fetches api (i + 2) = [i + 2] :=
      fun i _ => get_owner_clusters_fetches_ne_one api (i + 2) (by omega)
    rw [List.map_congr_left heach]
    have hflat : ((List.range (N - 1)).map (fun i => [i + 2])).flatten
        = (List.range (N - 1)).map (fun i => i + 2) := by
      induction (List.range (N - 1)) with
      | nil => rfl
      | cons a t ih => simp [ih]
    rw [hflat]
    have hrange : (List.range (N - 1)).map (fun i => i + 2) = List.range' 2 (N - 1) := by
      rw [List.range'_eq_map_range]
      exact List.map_congr_left (fun i _ => by omega)
    rw [hrange]
    have hsplit : N = (N - 1) + 1 := by omega
    rw [hsplit, List.range'_succ]
    norm_num
  · have hN1 : N = 1 := by omega
    subst hN1
    simp

/-- Sequencing a list of values that are all `some`. -/
theorem allSome_map_some {α β : Type} (l : List α) (f : α → Option β) (g : α → β)
    (h : ∀ x ∈ l, f x = some (g x)) : allSome (l.map f) = some (l.map g) := by
  induction l with
  | nil => rfl
  | cons a t ih =>
    have ha := h a (List.mem_cons_self a t)
    simp only [List.map_cons, ha, allSome]
    rw [ih (fun x hx => h x (List.mem_cons_of_mem a hx))]
    rfl

/-- Fuel 1 suffices for any call with `page ≠ 1`. -/
theorem get_owner_clusters_fuel_one_ne (api : Nat → Except Unit (List SSVCluster × Nat))
    (page : Nat) (h : page ≠ 1) :
    get_owner_clusters_fuel api 1 page = some (get_owner_clusters api page) := by
  rw [get_owner_clusters_ne_one api page h, get_owner_clusters_fuel, page_contribution]
  match api page with
  | .error _ => rfl
  | .ok (cs, numPages) => simp [h]

/-- Fuel 2 suffices for every call, whatever `pages` value the API
reports. -/
theorem get_owner_clusters_fuel_two (api : Nat → Except Unit (List SSVCluster × Nat))
    (page : Nat) :
    get_owner_clusters_fuel api 2 page = some (get_owner_clusters api page) := by
  by_cases h : page = 1
  · subst h
    rw [get_owner_clusters_fuel, get_owner_clusters]
    match h1 : api 1 with
    | .error _ => rfl
    | .ok (cs, numPages) =>
      by_cases h2 : 1 < numPages
      · simp only [true_and, h2, if_pos, dif_pos]
        rw [allSome_map_some (List.range (numPages - 1))
          (fun i => get_owner_clusters_fuel api 1 (i + 2))
          (fun i => get_owner_clusters api (i + 2))
          (fun i _ => get_owner_clusters_fuel_one_ne api (i + 2) (by omega))]
        rfl
      · simp [h2]
  · rw [get_owner_clusters_ne_one api page h, get_owner_clusters_fuel, page_contribution]
    match api page with
    | .error _ => rfl
    | .ok (cs, numPages) => simp [h]

/-- A `List.mapM` into `Except Unit` fails when any element fails. -/
theorem mapM_error_of_mem {α β : Type} (f : α → Except Unit β) (l : List α) (c : α)
    (hc : c ∈ l) (hf : f c = .error ()) : l.mapM f = .error () := by
  induction l with
  | nil => cases hc
  | cons a t ih =>
    rw [List.mapM_cons]
    rcases List.mem_cons.mp hc with h | h
    · subst h
      rw [hf]
      rfl
    · rw [ih h]
      match ha : f a with
      | .error e => rfl
      | .ok b => rfl

/-- The per-task enrichment read of `SSVClusterContract` fails as soon as
either of the cluster's two contract reads fails. -/
theorem fetch_all_error_of_mem (bal burn : SSVCluster → Except Unit Int)
    (clusters : List SSVCluster) (c : SSVCluster) (hc : c ∈ clusters)
    (hfail : bal c = .error () ∨ burn c = .error ()) :
    fetch_all bal burn clusters = .error () := by
  apply mapM_error_of_mem _ _ c hc
  rcases hfail with h | h
  · rw [h]
    rfl
  · match hb : bal c with
    | .error e => rfl
    | .ok b => rw [h]; rfl

/-- Whatever the network path does, it leaves the three per-cluster gauge
families untouched. -/
theorem network_path_preserves_cluster_gauges (nf mlc ltp : Except Unit Int)
    (network : SupportedNetworks) (m : Metrics) :
    (match network_updates nf mlc ltp network m with
      | .ok m2 => m2
      | .error _ => m).cluster_balance = m.cluster_balance
    ∧ (match network_updates nf mlc ltp network m with
      | .ok m2 => m2
      | .error _ => m).cluster_burn_rate = m.cluster_burn_rate
    ∧ (match network_updates nf mlc ltp network m with
      | .ok m2 => m2
      | .error _ => m).cluster_validators_count = m.cluster_validators_count := by
  unfold network_updates
  match network_fetch_all nf mlc ltp with
  | .error e => exact ⟨rfl, rfl, rfl⟩
  | .ok props => exact ⟨rfl, rfl, rfl⟩

/-- When the cluster path of a tick fails, the tick holds every cluster
gauge at its pre-tick value, catches the exception once, and behaves as the
network path alone. -/
theorem tick_cluster_path_error (bal burn : SSVCluster → Except Unit Int)
    (owners : List (Nat → Except Unit (List SSVCluster × Nat)))
    (ids : List (Except Unit (Option SSVCluster)))
    (nf mlc ltp : Except Unit Int) (network : SupportedNetworks) (m : Metrics)
    (h : clusters_updates bal burn owners ids m = .error ()) :
    (tick bal burn owners ids nf mlc ltp network m).1.cluster_balance
        = m.cluster_balance
    ∧ (tick bal burn owners ids nf mlc ltp network m).1.cluster_burn_rate
        = m.cluster_burn_rate
    ∧ (tick bal burn owners ids nf mlc ltp network m).1.cluster_validators_count
        = m.cluster_validators_count
    ∧ (tick bal burn owners ids nf mlc ltp network m).2 = 1
    ∧ (tick bal burn owners ids nf mlc ltp network m).1
        = (match network_updates nf mlc ltp network m with
          | .ok m2 => m2
          | .error _ => m) := by
  unfold tick
  rw [h]
  obtain ⟨h1, h2, h3⟩ := network_path_preserves_cluster_gauges nf mlc ltp network m
  refine ⟨h1, h2, h3, ?_, rfl⟩
  match network_updates nf mlc ltp network m with
  | .ok m2 => rfl
  | .error e => rfl

/-!
Claim theorems.
-/

/-- C1 counterexample: two discovery records with the same `clusterId`
(here even the same Python hash, since `__hash__` is `self.id`) but a
different `validatorCount` do **not** collapse: the set built in
`clusters_updates` keeps two entries for `clusterId = "0xabc"`. -/
theorem C1_same_clusterId_not_collapsed :
    cDupA.clusterId = cDupB.clusterId
    ∧ SSVCluster.pyHash cDupA = SSVCluster.pyHash cDupB
    ∧ ((clusters_updates_set [cDupA, cDupB]).filter
      (fun c => c.clusterId = "0xabc")).length = 2 := by
  refine ⟨rfl, rfl, ?_⟩
  decide

/-- C1 (amended): the set built by `clusters_updates` from the results of
`fetch_clusters_info` deduplicates by whole-record equality (pydantic
`__eq__` over all fields; `__hash__ = self.id` only buckets), not by
`clusterId` alone: it contains exactly one entry per distinct record value,
and keeps exactly the records of the discovery result. -/
theorem C1_dedup_is_by_full_record_equality (l : List SSVCluster) :
    (clusters_updates_set l).Nodup
    ∧ ∀ c : SSVCluster, c ∈ clusters_updates_set l ↔ c ∈ l :=
  ⟨l.nodup_dedup, fun _ => List.mem_dedup⟩

/-- C2 counterexample: a tick whose cluster enrichment fails (the balance
read of the one discovered cluster raises) still publishes the
network-scoped gauges, because `asyncio.gather` does not cancel the
concurrently running `network_updates` coroutine: the network-fee gauge
moves from its pre-tick (empty) state to the freshly fetched value 5. -/
theorem C2_network_gauges_published_despite_enrichment_failure :
    clusters_updates balErr burnOk [] [.ok (some cEnrich)] {} = .error ()
    ∧ (tick balErr burnOk [] [.ok (some cEnrich)]
        (.ok 5) (.ok 6) (.ok 7) .holesky {}).1.network_fee = [(["holesky"], 5)]
    ∧ ({} : Metrics).network_fee = [] :=
  ⟨rfl, rfl, rfl⟩

/-- C2 (amended): when the cluster-enrichment path of a tick fails, none of
the three cluster gauge families moves from its pre-tick value and the
exception is caught exactly once; but the network path runs concurrently to
completion, so the tick's final gauge state is exactly what the network
path alone produces (the network-scoped gauges are still published whenever
the three network reads succeed). -/
theorem C2_enrichment_failure_holds_cluster_gauges_only
    (bal burn : SSVCluster → Except Unit Int)
    (owners : List (Nat → Except Unit (List SSVCluster × Nat)))
    (ids : List (Except Unit (Option SSVCluster)))
    (nf mlc ltp : Except Unit Int) (network : SupportedNetworks) (m : Metrics)
    (h : clusters_updates bal burn owners ids m = .error ()) :
    (tick bal burn owners ids nf mlc ltp network m).1.cluster_balance
        = m.cluster_balance
    ∧ (tick bal burn owners ids nf mlc ltp network m).1.cluster_burn_rate
        = m.cluster_burn_rate
    ∧ (tick bal burn owners ids nf mlc ltp network m).1.cluster_validators_count
        = m.cluster_validators_count
    ∧ (tick bal burn owners ids nf mlc ltp network m).2 = 1
    ∧ (tick bal burn owners ids nf mlc ltp network m).1
        = (match network_updates nf mlc ltp network m with
          | .ok m2 => m2
          | .error _ => m) :=
  tick_cluster_path_error bal burn owners ids nf mlc ltp network m h

/-- C2 witness: the amended theorem applied at a concrete input (one
discovered cluster, failing balance read, succeeding network reads). -/
theorem C2_enrichment_failure_witness :
    (tick balErr burnOk [] [.ok (some cEnrich)]
        (.ok 5) (.ok 6) (.ok 7) .holesky {}).1.cluster_balance
      = ({} : Metrics).cluster_balance
    ∧ (tick balErr burnOk [] [.ok (some cEnrich)]
        (.ok 5) (.ok 6) (.ok 7) .holesky {}).2 = 1 := by
  have h := C2_enrichment_failure_holds_cluster_gauges_only balErr burnOk []
    [.ok (some cEnrich)] (.ok 5) (.ok 6) (.ok 7) .holesky {} rfl
  exact ⟨h.1, h.2.2.2.1⟩

/-- C3: if any one of the per-cluster balance/burn-rate contract reads of a
tick fails, none of the three cluster gauge families moves from its
pre-tick value — also for clusters whose own two reads succeeded. -/
theorem C3_single_fetch_failure_holds_all_cluster_gauges
    (bal burn : SSVCluster → Except Unit Int)
    (owners : List (Nat → Except Unit (List SSVCluster × Nat)))
    (ids : List (Except Unit (Option SSVCluster)))
    (nf mlc ltp : Except Unit Int) (network : SupportedNetworks) (m : Metrics)
    (c : SSVCluster)
    (hc : c ∈ clusters_updates_set (fetch_clusters_info owners ids))
    (hfail : bal c = .error () ∨ burn c = .error ()) :
    (tick bal burn owners ids nf mlc ltp network m).1.cluster_balance
        = m.cluster_balance
    ∧ (tick bal burn owners ids nf mlc ltp network m).1.cluster_burn_rate
        = m.cluster_burn_rate
    ∧ (tick bal burn owners ids nf mlc ltp network m).1.cluster_validators_count
        = m.cluster_validators_count := by
  have herr : clusters_updates bal burn owners ids m = .error () := by
    unfold clusters_updates
    rw [fetch_all_error_of_mem bal burn _ c hc hfail]
    rfl
  obtain ⟨h1, h2, h3, _, _⟩ :=
    tick_cluster_path_error bal burn owners ids nf mlc ltp network m herr
  exact ⟨h1, h2, h3⟩

/-- C3 witness: two discovered clusters; `cEnrich`'s balance read fails
while `cPg1`'s two reads succeed; no cluster gauge family changes. -/
theorem C3_single_fetch_failure_witness :
    (tick (fun c => if c.id = 9 then .error () else .ok 11) burnOk []
        [.ok (some cEnrich), .ok (some cPg1)]
        (.ok 5) (.ok 6) (.ok 7) .holesky {}).1.cluster_balance
      = ({} : Metrics).cluster_balance := by
  have h := C3_single_fetch_failure_holds_all_cluster_gauges
    (fun c => if c.id = 9 then .error () else .ok 11) burnOk []
    [.ok (some cEnrich), .ok (some cPg1)]
    (.ok 5) (.ok 6) (.ok 7) .holesky {} cEnrich (by decide) (Or.inl rfl)
  exact h.1

/-- C4 counterexample: an owner whose first-page response succeeds (one
cluster, 2 pages reported) while page 2 raises does **not** contribute an
empty set for the tick — the page-1 clusters are kept, only page 2's
contribution is dropped. -/
theorem C4_late_page_failure_keeps_other_pages :
    apiPage2Fails 2 = .error ()
    ∧ get_owner_clusters apiPage2Fails 1 = [cPg1]
    ∧ [cPg1] ≠ ([] : List SSVCluster) := by
  refine ⟨rfl, ?_, by decide⟩
  rw [get_owner_clusters_one apiPage2Fails [cPg1] 2 rfl]
  decide

/-- C4 (amended): a fetch failure on page 1 makes the owner's contribution
for the tick empty; a fetch failure on a page `k > 1` drops only that
page's clusters — the owner's result is always page 1's clusters followed
by each further page's own contribution, failed pages contributing `[]`.
Other owners' contributions are unaffected: an owner's entry in
`fetch_clusters_info` depends only on that owner's own query results. -/
theorem C4_page_failure_drops_only_that_page :
    (∀ api : Nat → Except Unit (List SSVCluster × Nat),
      api 1 = .error () → get_owner_clusters api 1 = [])
    ∧ (∀ (api : Nat → Except Unit (List SSVCluster × Nat))
        (cs : List SSVCluster) (N : Nat),
      api 1 = .ok (cs, N) →
      get_owner_clusters api 1 =
        cs ++ ((List.range (N - 1)).map
          (fun i => page_contribution api (i + 2))).flatten)
    ∧ (∀ (a a2 : Nat → Except Unit (List SSVCluster × Nat))
        (o1 o2 : List (Nat → Except Unit (List SSVCluster × Nat)))
        (ids : List (Except Unit (Option SSVCluster))),
      get_owner_clusters a 1 = get_owner_clusters a2 1 →
      fetch_clusters_info (o1 ++ a :: o2) ids
        = fetch_clusters_info (o1 ++ a2 :: o2) ids) := by
  refine ⟨?_, ?_, ?_⟩
  · intro api h
    rw [get_owner_clusters, h]
  · intro api cs N h
    exact get_owner_clusters_one api cs N h
  · intro a a2 o1 o2 ids h
    unfold fetch_clusters_info
    simp [h]

/-- C4 witness: the amended characterisation applied to the concrete owner
whose page 2 fails. -/
theorem C4_page_failure_witness :
    get_owner_clusters apiPage2Fails 1
      = [cPg1] ++ ((List.range 1).map
        (fun i => page_contribution apiPage2Fails (i + 2))).flatten :=
  C4_page_failure_drops_only_that_page.2.1 apiPage2Fails [cPg1] 2 rfl

/-- The gather-and-concatenate step fails immediately on a failed head
task. -/
theorem gatherFlatten_cons_error (e : UncaughtExc)
    (rest : List (Except UncaughtExc (List SSVCluster))) :
    gatherFlatten (.error e :: rest) = .error e := rfl

/-- The gather-and-concatenate step prepends a succeeded head task's
clusters. -/
theorem gatherFlatten_cons_ok (v : List SSVCluster)
    (rest : List (Except UncaughtExc (List SSVCluster))) :
    gatherFlatten (.ok v :: rest)
      = match gatherFlatten rest with
        | .error e => .error e
        | .ok l => .ok (v ++ l) := by
  unfold gatherFlatten
  rw [show allOk (.ok v :: rest) = (allOk rest).map (v :: ·) from rfl]
  match allOk rest with
  | .error e => rfl
  | .ok ls => rfl

/-- A task that succeeded with no clusters can be deleted from the gathered
task list without changing the outcome. -/
theorem gatherFlatten_insert_ok_nil (xs ys : List (Except UncaughtExc (List SSVCluster))) :
    gatherFlatten (xs ++ .ok [] :: ys) = gatherFlatten (xs ++ ys) := by
  induction xs with
  | nil =>
    show gatherFlatten (.ok [] :: ys) = gatherFlatten ys
    rw [gatherFlatten_cons_ok]
    match gatherFlatten ys with
    | .error e => rfl
    | .ok l => rfl
  | cons x xs ih =>
    match x with
    | .error e =>
      rw [List.cons_append, List.cons_append, gatherFlatten_cons_error,
        gatherFlatten_cons_error]
    | .ok v =>
      rw [List.cons_append, List.cons_append, gatherFlatten_cons_ok,
        gatherFlatten_cons_ok, ih]

/-- Sequencing results that are all successes succeeds. -/
theorem allOk_ok_of_forall {ε α : Type} (l : List (Except ε α))
    (h : ∀ x ∈ l, ∃ v, x = .ok v) : ∃ ls, allOk l = .ok ls := by
  induction l with
  | nil => exact ⟨[], rfl⟩
  | cons x rest ih =>
    obtain ⟨v, hv⟩ := h x (List.mem_cons_self x rest)
    obtain ⟨ls, hls⟩ := ih (fun y hy => h y (List.mem_cons_of_mem x hy))
    refine ⟨v :: ls, ?_⟩
    rw [hv, show allOk (.ok v :: rest) = (allOk rest).map (v :: ·) from rfl, hls]
    rfl

/-- In the full-error-surface model, a call with `page ≠ 1` is just its own
request: caught `SSVAPIError` gives `[]`, the two uncaught paths raise, a
well-formed page gives its clusters. -/
theorem get_owner_clusters_checked_ne_one (api : Nat → RequestOutcome OwnerPayload)
    (page : Nat) (h : page ≠ 1) :
    get_owner_clusters_checked api page
      = match api page with
        | .apiError => .ok []
        | .decodeError => .error .jsonDecodeError
        | .ok .missingKeys => .error .keyError
        | .ok (.pageData cs _) => .ok cs := by
  rw [get_owner_clusters_checked]
  match api page with
  | .apiError => rfl
  | .decodeError => rfl
  | .ok .missingKeys => rfl
  | .ok (.pageData cs numPages) => simp [h]

/-- An owner walk none of whose page requests hits an uncaught path (decode
failure or missing key) returns normally, whatever mix of `SSVAPIError`s
and successes its pages produce. -/
theorem get_owner_clusters_checked_ok_of_no_uncaught
    (api : Nat → RequestOutcome OwnerPayload)
    (hnd : ∀ p, api p ≠ .decodeError) (hnk : ∀ p, api p ≠ .ok .missingKeys)
    (page : Nat) :
    ∃ cs, get_owner_clusters_checked api page = .ok cs := by
  by_cases hp : page = 1
  · subst hp
    rw [get_owner_clusters_checked]
    match h1 : api 1 with
    | .apiError => exact ⟨[], rfl⟩
    | .decodeError => exact absurd h1 (hnd 1)
    | .ok .missingKeys => exact absurd h1 (hnk 1)
    | .ok (.pageData cs numPages) =>
      by_cases h2 : 1 < numPages
      · simp only [true_and, h2, dif_pos]
        have hall : ∀ x ∈ (List.range (numPages - 1)).map
            (fun i => get_owner_clusters_checked api (i + 2)), ∃ v, x = .ok v := by
          intro x hx
          obtain ⟨i, hi, rfl⟩ := List.mem_map.mp hx
          rw [get_owner_clusters_checked_ne_one api (i + 2) (by omega)]
          match h3 : api (i + 2) with
          | .apiError => exact ⟨[], rfl⟩
          | .decodeError => exact absurd h3 (hnd (i + 2))
          | .ok .missingKeys => exact absurd h3 (hnk (i + 2))
          | .ok (.pageData cs2 m) => exact ⟨cs2, rfl⟩
        obtain ⟨ls, hls⟩ := allOk_ok_of_forall _ hall
        rw [hls]
        exact ⟨cs ++ ls.flatten, rfl⟩
      · exact ⟨cs, by simp [h2]⟩
  · rw [get_owner_clusters_checked_ne_one api page hp]
    match h1 : api page with
    | .apiError => exact ⟨[], rfl⟩
    | .decodeError => exact absurd h1 (hnd page)
    | .ok .missingKeys => exact absurd h1 (hnk page)
    | .ok (.pageData cs m) => exact ⟨cs, rfl⟩

/-- C5 counterexample: not every fetch error is caught at the source
boundary.  A response body that fails to decode raises
`json.JSONDecodeError`, which is not in `request`'s
`except (ClientError, OSError)` clause, is not an `SSVAPIError`, and
propagates out of `fetch_clusters_info`; and an explicit-id response whose
`data` field is *absent* raises `KeyError` instead of returning an empty
list. -/
theorem C5_decode_error_escapes :
    fetch_clusters_info_checked [] [RequestOutcome.decodeError]
      = .error .jsonDecodeError
    ∧ get_cluster_by_id_checked (.ok .missingData) = .error .keyError :=
  ⟨rfl, rfl⟩

/-- C5 (amended): every error that `request` wraps into `SSVAPIError`
(transport failure, non-200 status, or a body-read failure signalled as
`ClientError` / `OSError`) is caught at its source's boundary, for explicit
cluster ids and for owner pages alike: the source contributes nothing, the
rest of the configured set is unaffected, and when no request hits an
uncaught path (`json.JSONDecodeError` from decoding the body, `KeyError`
from a missing `data` / `clusters` key) nothing propagates out of
`fetch_clusters_info`.  A null/falsy `data` field likewise yields an empty
list, not an error. -/
theorem C5_api_errors_isolated :
    (get_cluster_by_id_checked .apiError = .ok []
      ∧ get_cluster_by_id_checked (.ok .dataNull) = .ok [])
    ∧ (∀ (owners : List (Nat → RequestOutcome OwnerPayload))
        (ids1 ids2 : List (RequestOutcome IdPayload)),
      fetch_clusters_info_checked owners (ids1 ++ .apiError :: ids2)
        = fetch_clusters_info_checked owners (ids1 ++ ids2))
    ∧ (∀ (api : Nat → RequestOutcome OwnerPayload) (page : Nat),
      api page = .apiError → get_owner_clusters_checked api page = .ok [])
    ∧ (∀ (owners : List (Nat → RequestOutcome OwnerPayload))
        (ids : List (RequestOutcome IdPayload)),
      (∀ api ∈ owners, ∀ p, api p ≠ .decodeError ∧ api p ≠ .ok .missingKeys) →
      (∀ r ∈ ids, r ≠ .decodeError ∧ r ≠ .ok .missingData) →
      ∃ cs, fetch_clusters_info_checked owners ids = .ok cs) := by
  refine ⟨⟨rfl, rfl⟩, ?_, ?_, ?_⟩
  · intro owners ids1 ids2
    unfold fetch_clusters_info_checked
    rw [List.map_append, List.map_append, List.map_cons,
      show get_cluster_by_id_checked .apiError = .ok [] from rfl,
      ← List.append_assoc, ← List.append_assoc]
    exact gatherFlatten_insert_ok_nil _ _
  · intro api page h
    rw [get_owner_clusters_checked, h]
  · intro owners ids ho hi
    have hall : ∀ x ∈ owners.map (fun api => get_owner_clusters_checked api 1)
        ++ ids.map get_cluster_by_id_checked, ∃ v, x = .ok v := by
      intro x hx
      rcases List.mem_append.mp hx with hx | hx
      · obtain ⟨api, hapi, rfl⟩ := List.mem_map.mp hx
        exact get_owner_clusters_checked_ok_of_no_uncaught api
          (fun p => (ho api hapi p).1) (fun p => (ho api hapi p).2) 1
      · obtain ⟨r, hr, rfl⟩ := List.mem_map.mp hx
        match h1 : r with
        | .apiError => exact ⟨[], rfl⟩
        | .decodeError => exact absurd rfl (hi _ hr).1
        | .ok .missingData => exact absurd rfl (hi _ hr).2
        | .ok .dataNull => exact ⟨[], rfl⟩
        | .ok (.dataCluster c) => exact ⟨[c], rfl⟩
    obtain ⟨ls, hls⟩ := allOk_ok_of_forall _ hall
    refine ⟨ls.flatten, ?_⟩
    unfold fetch_clusters_info_checked gatherFlatten
    rw [hls]

/-- C5 witness: an all-`SSVAPIError` owner contributes nothing; a mixed
configuration (one clean owner, one succeeding id, one `SSVAPIError` id)
produces a normal, error-free result. -/
theorem C5_api_errors_witness :
    get_owner_clusters_checked ownerApiErrors 3 = .ok []
    ∧ ∃ cs, fetch_clusters_info_checked [ownerOnePage]
        [.ok (.dataCluster cEnrich), .apiError] = .ok cs := by
  constructor
  · exact C5_api_errors_isolated.2.2.1 ownerApiErrors 3 rfl
  · refine C5_api_errors_isolated.2.2.2 [ownerOnePage]
      [.ok (.dataCluster cEnrich), .apiError] ?_ ?_
    · intro api hapi p
      have hone : api = ownerOnePage := by simpa using hapi
      subst hone
      exact ⟨by simp [ownerOnePage], by simp [ownerOnePage]⟩
    · intro r hr
      rcases List.mem_cons.mp hr with rfl | hr
      · exact ⟨by simp, by simp⟩
      · rcases List.mem_cons.mp hr with rfl | hr
        · exact ⟨by simp, by simp⟩
        · cases hr

/-- C6: when the first-page response reports `pages = N ≥ 1` and every page
fetch succeeds, the owner walk performs exactly `N` page fetches, walking
pages `1, 2, …, N` in increasing order, and returns the concatenation of
all `N` pages' clusters lists in page order. -/
theorem C6_pagination_walk_complete
    (api : Nat → Except Unit (List SSVCluster × Nat)) (cs : List SSVCluster)
    (N : Nat) (f : Nat → List SSVCluster) (g : Nat → Nat)
    (h : api 1 = .ok (cs, N)) (hN : 1 ≤ N)
    (hp : ∀ p, 2 ≤ p → p ≤ N → api p = .ok (f p, g p)) :
    get_owner_clusters_fetches api 1 = List.range' 1 N
    ∧ (get_owner_clusters_fetches api 1).length = N
    ∧ get_owner_clusters api 1 = cs ++ ((List.range' 2 (N - 1)).map f).flatten := by
  refine ⟨get_owner_clusters_fetches_one api cs N h hN, ?_, ?_⟩
  · rw [get_owner_clusters_fetches_one api cs N h hN]
    simp
  · rw [get_owner_clusters_one api cs N h]
    refine congrArg (cs ++ ·) (congrArg List.flatten ?_)
    rw [List.range'_eq_map_range, List.map_map]
    refine List.map_congr_left (fun i hi => ?_)
    have hiN : i < N - 1 := List.mem_range.mp hi
    have hap : api (i + 2) = .ok (f (i + 2), g (i + 2)) :=
      hp (i + 2) (by omega) (by omega)
    have hpc : page_contribution api (i + 2) = f (i + 2) := by
      simp [page_contribution, hap]
    show page_contribution api (i + 2) = f (2 + i)
    rw [hpc]
    congr 1
    omega

/-- C6 witness: a concrete owner with three successful pages. -/
theorem C6_pagination_walk_witness :
    get_owner_clusters_fetches apiThreePages 1 = List.range' 1 3
    ∧ (get_owner_clusters_fetches apiThreePages 1).length = 3
    ∧ get_owner_clusters apiThreePages 1
        = [cPgA] ++ ((List.range' 2 2).map threePagesContent).flatten :=
  C6_pagination_walk_complete apiThreePages [cPgA] 3 threePagesContent
    (fun _ => 3) rfl (by omega) (fun p h2 h3 => by interval_cases p <;> rfl)

/-- C7: starting from a running exporter with an open session, calling
`stop()` twice raises nothing (every step of the model is total) and the
underlying session teardown is performed exactly once, during the first
`stop()`; the second call leaves the state unchanged. -/
theorem C7_stop_twice_safe (st : ExporterState)
    (h1 : st.session.closed = false) (h2 : st.session.close_ops = 0) :
    (stop st).session.closed = true
    ∧ (stop st).session.close_ops = 1
    ∧ (stop (stop st)).session.closed = true
    ∧ (stop (stop st)).session.close_ops = 1 := by
  simp [stop, session_close, h1, h2]

/-- C7 witness: the double-stop property at the concrete running state. -/
theorem C7_stop_twice_witness :
    (stop runningState).session.closed = true
    ∧ (stop runningState).session.close_ops = 1
    ∧ (stop (stop runningState)).session.closed = true
    ∧ (stop (stop runningState)).session.close_ops = 1 :=
  C7_stop_twice_safe runningState rfl rfl

/-- C8: `cluster_state()` realises exactly the spec's table — liquidated
whenever `isLiquidated` (regardless of `active`), else active iff
`active`, else inactive — and the `"unknown"` fallback is unreachable for
every combination of the two booleans. -/
theorem C8_cluster_state_matches_spec_table (c : SSVCluster) :
    c.cluster_state = (if c.isLiquidated then "liquidated"
      else if c.active then "active" else "inactive")
    ∧ c.cluster_state ≠ "unknown" := by
  obtain ⟨i, cid, nw, oa, vc, nfi, idx, b, act, liq, ops, lb, lbr⟩ := c
  cases act <;> cases liq
  · exact ⟨rfl, show "inactive" ≠ "unknown" by decide⟩
  · exact ⟨rfl, show "liquidated" ≠ "unknown" by decide⟩
  · exact ⟨rfl, show "active" ≠ "unknown" by decide⟩
  · exact ⟨rfl, show "liquidated" ≠ "unknown" by decide⟩

/-- C9: `operators_label()` is the comma-joined rendering of the operator
list in payload order, and the spec's example list `[1092,1093,1094,1095]`
renders as `"1092,1093,1094,1095"`. -/
theorem C9_operators_label_comma_joined :
    (∀ c : SSVCluster, c.operators_label = comma_joined_render c.operators)
    ∧ SSVCluster.operators_label c1092 = "1092,1093,1094,1095" := by
  constructor
  · intro c
    show String.intercalate "," (c.operators.map toString) = _
    exact intercalate_eq_comma_joined_render c.operators
  · rfl

/-- C10: `get_owner_clusters` terminates on every input: a call with
`page ≠ 1` performs exactly one page fetch and never recurses, and
recursion depth 2 (fuel 2 in the fuel-indexed variant) suffices for every
call, regardless of the `pages` value the API reports. -/
theorem C10_recursion_depth_bounded :
    (∀ (api : Nat → Except Unit (List SSVCluster × Nat)) (page : Nat),
      page ≠ 1 → get_owner_clusters_fetches api page = [page])
    ∧ ∀ (api : Nat → Except Unit (List SSVCluster × Nat)) (page : Nat),
      get_owner_clusters_fuel api 2 page = some (get_owner_clusters api page) :=
  ⟨get_owner_clusters_fetches_ne_one, get_owner_clusters_fuel_two⟩

/-- C10 witness: the depth bound at a concrete owner query. -/
theorem C10_recursion_depth_witness :
    get_owner_clusters_fetches apiPage2Fails 2 = [2]
    ∧ get_owner_clusters_fuel apiPage2Fails 2 1
        = some (get_owner_clusters apiPage2Fails 1) :=
  ⟨C10_recursion_depth_bounded.1 apiPage2Fails 2 (by decide),
   C10_recursion_depth_bounded.2 apiPage2Fails 1⟩

end SSVExporter
